import Mathlib

/-!
Verification development for the `i.worldview.toar` repository: a shallow
embedding of the radiometric-conversion pipeline (UTC string → Julian Day →
Earth-Sun distance; DN → spectral radiance → top-of-atmosphere reflectance)
together with theorems settling the specified properties.

Python floats are modelled as exact rationals where the code only performs
field arithmetic and truncation, and as real numbers where the trigonometric
functions `math.cos` / `math.radians` (and GRASS r.mapcalc's `cos`, which
takes degrees) are involved.
-/

namespace WVToar

/-- Python `int()` applied to a float value: truncation toward zero. -/
def pyint (q : ℚ) : ℤ := if 0 ≤ q then ⌊q⌋ else ⌈q⌉

/-- Python string slice `s[a:b]` (character based; the inputs here are ASCII,
where Python character slicing and Lean character lists agree). -/
def pySlice (s : String) (a b : Nat) : String :=
  String.mk ((s.toList.drop a).take (b - a))

/-- The digits of a character run read as a base-10 number; any non-digit
character is a failure (Python `ValueError`).  An empty run fails at the
callers (`parseDigits`). -/
def parseDigitsAux : List Char → ℕ → Option ℕ
  | [], acc => some acc
  | c :: rest, acc =>
      if c.isDigit then parseDigitsAux rest (acc * 10 + (c.toNat - 48))
      else none

/-- A non-empty all-digit character run as a natural number. -/
def parseDigits (cs : List Char) : Option ℕ :=
  match cs with
  | [] => none
  | _ => parseDigitsAux cs 0

/-- Python `int()` on the fixed-width numeric fields handled here: an
optional minus sign followed by digits. -/
def pyIntOfChars (cs : List Char) : Option ℤ :=
  match cs with
  | '-' :: rest => (parseDigits rest).map (fun n => -(n : ℤ))
  | _ => (parseDigits cs).map (fun n => (n : ℤ))

/-- Python `int()` applied to a string field. -/
def pyIntOfString (s : String) : Option ℤ :=
  pyIntOfChars s.toList

/-- Python `str.split` on a single separator character. -/
def splitOnChar (c : Char) : List Char → List (List Char)
  | [] => [[]]
  | ch :: rest =>
      match splitOnChar c rest with
      | [] => []
      | p :: ps => if ch = c then [] :: p :: ps else (ch :: p) :: ps

/-- Python `float()` restricted to the decimal literals the seconds field of
a UTC stamp holds (`"ss.dddddd"`: an integer part with an optional all-digit
fractional part). -/
def parseDecimal (s : String) : Option ℚ :=
  match splitOnChar '.' s.toList with
  | [ip] => (pyIntOfChars ip).map (fun n => (n : ℚ))
  | [ip, fp] => do
      let n ← pyIntOfChars ip
      let f ← parseDigits fp
      pure ((n : ℚ) + (f : ℚ) / (10 : ℚ) ^ fp.length)
  | _ => none

/-- The dictionary `acq_utc` built by `extract_time_elements` in
`utc_to_esd.py`: calendar fields of the acquisition stamp, with the
January/February adjustment already applied to `year`/`month`. -/
structure AcqUtc where
  year : ℤ
  month : ℤ
  day : ℤ
  hours : ℤ
  minutes : ℤ
  seconds : ℚ
deriving DecidableEq

/-- `extract_time_elements` of `utc_to_esd.py` (lines 27-44): fixed-offset
extraction of the calendar fields, with the in-place modification
`year -= 1; month += 12` when the parsed month is 1 or 2.  A field whose
slice is not numeric makes Python raise `ValueError`, modelled as `none`. -/
def extract_time_elements (utc : String) : Option AcqUtc := do
  let year0 ← pyIntOfString (pySlice utc 0 4)
  let month0 ← pyIntOfString (pySlice utc 5 7)
  let year := if month0 = 1 ∨ month0 = 2 then year0 - 1 else year0
  let month := if month0 = 1 ∨ month0 = 2 then month0 + 12 else month0
  let day ← pyIntOfString (pySlice utc 8 10)
  let hours ← pyIntOfString (pySlice utc 11 13)
  let minutes ← pyIntOfString (pySlice utc 14 16)
  let seconds ← parseDecimal (pySlice utc 17 26)
  pure { year := year, month := month, day := day, hours := hours,
         minutes := minutes, seconds := seconds }

/-- `universal_time` of `utc_to_esd.py` (lines 47-50): `hh + mm/60 + ss/3600`
in fractional hours. -/
def universal_time (hh mm : ℤ) (ss : ℚ) : ℚ :=
  (hh : ℚ) + (mm : ℚ) / 60 + ss / 3600

/-- `julian_day` of `utc_to_esd.py` (lines 53-65).  `A = int(year / 100)` and
`int(A / 4)` are Python 2 integer (floor) divisions; the two other `int(...)`
calls truncate float products.  Note the constant `1525.5` of the source. -/
def julian_day (year month day : ℤ) (ut : ℚ) : ℚ :=
  let A : ℤ := Int.fdiv year 100
  let B : ℤ := 2 - A + Int.fdiv A 4
  ((pyint (365.25 * ((year : ℚ) + 4716)) : ℤ) : ℚ) +
    ((pyint (30.6001 * ((month : ℚ) + 1)) : ℤ) : ℚ) +
    (day : ℚ) + ut / 24 + (B : ℚ) - 1525.5

/-- The error kinds of the pipeline: a non-numeric field in the UTC stamp
(Python `ValueError` from `int`/`float`), an Earth-Sun distance outside
[0.983, 1.017] (the `ValueError` raised by `jd_to_esd`), and the
`grass.fatal` branch of `main` when neither `doy` nor `utc` is supplied. -/
inductive ToarError
  | parseError
  | rangeError
  | missingMetadata
deriving DecidableEq

/-- The Earth-Sun distance value `dES` computed inside `jd_to_esd`
(`utc_to_esd.py` lines 68-74): `D = jd − 2451545.0`,
`g = 357.529 + 0.98560028·D` degrees, `dES = 1.00014 − 0.01671·cos(g) −
0.00014·cos(2g)` with `math.radians`/`math.cos`. -/
noncomputable def esdValue (jd : ℝ) : ℝ :=
  let D := jd - 2451545.0
  let g := 357.529 + 0.98560028 * D
  let gr := g * Real.pi / 180
  1.00014 - 0.01671 * Real.cos gr - 0.00014 * Real.cos (2 * gr)

/-- `jd_to_esd` of `utc_to_esd.py` (lines 68-81): the value `dES` when
`0.983 <= dES <= 1.017`, otherwise the raised `ValueError`. -/
noncomputable def jd_to_esd (jd : ℝ) : Except ToarError ℝ :=
  if 0.983 ≤ esdValue jd ∧ esdValue jd ≤ 1.017 then .ok (esdValue jd)
  else .error .rangeError

/-- `utc_to_esd` of `utc_to_esd.py` (lines 84-90): extract the time elements,
form universal time and Julian Day, convert to Earth-Sun distance. -/
noncomputable def utc_to_esd (utc : String) : Except ToarError ℝ :=
  match extract_time_elements utc with
  | none => .error .parseError
  | some a =>
      jd_to_esd ((julian_day a.year a.month a.day
        (universal_time a.hours a.minutes a.seconds) : ℚ) : ℝ)

/-- The `AcquisitionTime` object of `utc_to_esd.py` (lines 93-109): the raw
stamp, the fields copied from `extract_time_elements`, and the derived
`ut`, `jd` and `esd` attributes. -/
structure AcquisitionTime where
  utc : String
  year : ℤ
  month : ℤ
  day : ℤ
  hours : ℤ
  minutes : ℤ
  seconds : ℚ
  ut : ℚ
  jd : ℚ
  esd : ℝ

/-- `AcquisitionTime.__init__`: the fields are the dictionary entries of
`extract_time_elements(utc)`, `ut` and `jd` are derived from those stored
fields, and `esd` is `utc_to_esd(self.utc)` — the whole pipeline re-run on
the stored string.  A parse failure or an out-of-range distance raises,
modelled as `none`. -/
noncomputable def AcquisitionTime.make (utc : String) : Option AcquisitionTime :=
  (extract_time_elements utc).bind fun a =>
    (utc_to_esd utc).toOption.map fun esd =>
      { utc := utc, year := a.year, month := a.month, day := a.day,
        hours := a.hours, minutes := a.minutes, seconds := a.seconds,
        ut := universal_time a.hours a.minutes a.seconds,
        jd := julian_day a.year a.month a.day
          (universal_time a.hours a.minutes a.seconds),
        esd := esd }

/-- One value tuple of the `CF_BW_ESUN` dictionary of `i.worldview.toar.py`
(lines 181-190): slot 0 is the band's effective bandwidth Δλ, slot 1 the
band-averaged solar spectral irradiance Esun, slot 2 the absolute
calibration factor K (the retrieval indices used at lines 325, 329, 365). -/
structure CalibEntry where
  bw : ℚ
  esun : ℚ
  acf : ℚ
deriving DecidableEq

/-- The `CF_BW_ESUN` dictionary of `i.worldview.toar.py` (lines 181-190). -/
def CF_BW_ESUN : List (String × CalibEntry) :=
  [("Pan",     ⟨0.28460000, 1580.8140, 0.056783450⟩),
   ("Coastal", ⟨0.04730000, 1758.2229, 0.009295654⟩),
   ("Blue",    ⟨0.05430000, 1974.2416, 0.012608250⟩),
   ("Green",   ⟨0.06300000, 1856.4104, 0.009713071⟩),
   ("Yellow",  ⟨0.03740000, 1738.4791, 0.005829815⟩),
   ("Red",     ⟨0.05740000, 1559.4555, 0.011036230⟩),
   ("RedEdge", ⟨0.03930000, 1342.0695, 0.005188136⟩),
   ("NIR1",    ⟨0.09890000, 1069.7302, 0.012243800⟩),
   ("NIR2",    ⟨0.09960000,  861.2866, 0.009042234⟩)]

/-- Dictionary access `CF_BW_ESUN[band]`: `some` entry for a known band,
`none` for the `KeyError` an unknown band name raises. -/
def lookup (band : String) : Option CalibEntry :=
  (CF_BW_ESUN.find? (fun p => p.1 == band)).map (fun p => p.2)

/-- Python `"%f"` string interpolation: the value rounded to six decimal
places.  C's `%f` rounds the binary double half-to-even; none of the
constants interpolated here (calibration factors, bandwidths, irradiances,
angles) sits on a half-way tie at the sixth decimal, where that and `round`
could differ. -/
def fmt6 (q : ℚ) : ℚ :=
  (round (q * 10 ^ 6) : ℚ) / 10 ^ 6

/-- One pixel of the radiance `r.mapcalc` expression of `i.worldview.toar.py`
(lines 341-342): the format string `"%s = %f * %s / %f"` interpolates the
band's calibration factor `acf` and effective bandwidth `bw` with `%f`, so
the expression the engine evaluates is `fmt6 acf * band / fmt6 bw` (for
Green: `0.009713 * Green / 0.063000`). -/
def to_radiance_px (e : CalibEntry) (dn : ℚ) : ℚ :=
  fmt6 e.acf * dn / fmt6 e.bw

/-- The radiance conversion applied to a whole DN image (an arbitrary pixel
index type `P`): the mapcalc expression is evaluated per pixel. -/
def to_radiance_img {P : Type} (e : CalibEntry) (img : P → ℚ) : P → ℚ :=
  fun p => to_radiance_px e (img p)

/-- GRASS `r.mapcalc`'s `cos`, which takes its argument in degrees. -/
noncomputable def cosdeg (x : ℝ) : ℝ :=
  Real.cos (x * Real.pi / 180)

/-- One pixel of the reflectance `r.mapcalc` expression of
`i.worldview.toar.py` (lines 372-373): the format string
`"%f * %s * %f^2 / %f * cos(%f)"` instantiated with π, the radiance map, the
Earth-Sun distance, Esun and the sun zenith angle in degrees.  r.mapcalc's
`*` and `/` associate left with equal precedence and `^` binds tighter, so
the expression reads `((π * rad * esd^2) / esun) * cos(sza)`. -/
noncomputable def toar_pixel (rad esd esun sza : ℝ) : ℝ :=
  Real.pi * rad * esd ^ 2 / esun * cosdeg sza

/-- One pixel of the reflectance `r.mapcalc` expression of the shell script
`i.wv.toar.py` (lines 94-95): `( PI * Radiance * ESD^2 ) /
( Esun * cos(SZA) )` with the literal `PI=3.14159265358`. -/
noncomputable def toar_pixel_wv (rad esd esun sza : ℝ) : ℝ :=
  (3.14159265358 * rad * esd ^ 2) / (esun * cosdeg sza)

/-- Modelled from the spec: the elementwise reflectance
`π * radiance * esd² / (Esun * cos(sza_radians))` with
`sza_radians = sza_degrees·π/180`, transcribed from the spec's words to be
compared with the expressions the code builds. -/
noncomputable def reflectance_specified (rad esd esun sza_degrees : ℝ) : ℝ :=
  Real.pi * rad * esd ^ 2 / (esun * Real.cos (sza_degrees * Real.pi / 180))

/-- The Earth-Sun distance selection of `main` in `i.worldview.toar.py`
(lines 270-281): a non-empty `doy` option string wins and is passed through
`int()` straight to `jd_to_esd`; otherwise a non-empty `utc` string goes
through the `AcquisitionTime` pipeline; otherwise `grass.fatal`. -/
noncomputable def main_esd (doy utc : String) : Except ToarError ℝ :=
  if doy ≠ "" then
    match pyIntOfString doy with
    | some d => jd_to_esd (d : ℝ)
    | none => .error .parseError
  else if utc ≠ "" then utc_to_esd utc
  else .error .missingMetadata

/-- The kind of a map delivered (renamed to its final name) by `main`. -/
inductive OutKind
  | radiance
  | reflectance
deriving DecidableEq

/-- A final output of `main`'s per-band loop: the renamed map together with
the `units` string attached through `r.support`. -/
structure DeliveredOutput where
  kind : OutKind
  units : String
  name : String
deriving DecidableEq

/-- `band.split('@')[0]`: the band name with a `@mapset` suffix stripped. -/
def stripMapset (band : String) : String :=
  String.mk (band.toList.takeWhile (fun c => c ≠ '@'))

/-- The `if tmp_toar: ... elif tmp_rad: ...` output block of `main`
(`i.worldview.toar.py` lines 387-408), with Python string truthiness:
whichever branch fires attaches metadata and renames exactly that one
temporary map to the final name. -/
def deliver (tmp_toar tmp_rad final_name : String) : List DeliveredOutput :=
  if tmp_toar ≠ "" then
    [⟨OutKind.reflectance, "Unitless planetary reflectance", final_name⟩]
  else if tmp_rad ≠ "" then
    [⟨OutKind.radiance, "W / sq.m. / μm / ster", final_name⟩]
  else []

/-- One iteration of `main`'s per-band loop, restricted to which maps get
delivered: `tmp_rad` is always created (`tmp + ".Radiance"`); `tmp_toar`
keeps its falsy global value `""` when the `-r` flag asks for radiance only
and becomes `tmp + ".Reflectance"` otherwise; the final name is
`band.split('@')[0] + "." + outputsuffix`. -/
def process_band (radiance_flag : Bool) (tmp band outputsuffix : String) :
    List DeliveredOutput :=
  let band1 := stripMapset band
  let tmp_rad := tmp ++ ".Radiance"
  let tmp_toar := if radiance_flag then "" else tmp ++ ".Reflectance"
  deliver tmp_toar tmp_rad (stripMapset band1 ++ "." ++ outputsuffix)

/-- The quantity `1.00014 − 0.01671·cos(gr) − 0.00014·cos(2·gr)` stays inside
[0.983, 1.017] whatever the angle: writing `cos(2x) = 2·cos(x)² − 1` it is a
quadratic in `cos(x) ∈ [−1, 1]` with extrema 0.98329 and 1.01671. -/
theorem esdValue_mem (jd : ℝ) :
    0.983 ≤ esdValue jd ∧ esdValue jd ≤ 1.017 := by
  have hval : esdValue jd =
      1.00014 -
        0.01671 * Real.cos ((357.529 + 0.98560028 * (jd - 2451545.0)) * Real.pi / 180) -
        0.00014 * Real.cos (2 * ((357.529 + 0.98560028 * (jd - 2451545.0)) * Real.pi / 180)) :=
    rfl
  rw [hval]
  set gr := (357.529 + 0.98560028 * (jd - 2451545.0)) * Real.pi / 180 with hgr
  have h2 : Real.cos (2 * gr) = 2 * Real.cos gr ^ 2 - 1 := Real.cos_two_mul gr
  have hc1 : -1 ≤ Real.cos gr := Real.neg_one_le_cos gr
  have hc2 : Real.cos gr ≤ 1 := Real.cos_le_one gr
  rw [h2]
  constructor <;> nlinarith [sq_nonneg (Real.cos gr + 1), sq_nonneg (Real.cos gr - 1)]

/-- `jd_to_esd` never takes its failure branch: the computed distance is
always inside the validity window. -/
theorem jd_to_esd_ok (jd : ℝ) : jd_to_esd jd = .ok (esdValue jd) := by
  unfold jd_to_esd
  exact if_pos (esdValue_mem jd)

/-- The angle 36.2 degrees lies strictly inside the first quadrant, so
r.mapcalc's `cos(36.2)` is strictly between 0 and 1. -/
theorem cosdeg_36_2_pos : 0 < cosdeg 36.2 := by
  unfold cosdeg
  apply Real.cos_pos_of_mem_Ioo
  constructor
  · nlinarith [Real.pi_pos]
  · nlinarith [Real.pi_pos]

theorem cosdeg_36_2_lt_one : cosdeg 36.2 < 1 := by
  unfold cosdeg
  have hπ := Real.pi_pos
  have h0 : (0 : ℝ) < 36.2 * Real.pi / 180 := by nlinarith
  have hle : 36.2 * Real.pi / 180 ≤ Real.pi := by nlinarith
  have := Real.strictAntiOn_cos (Set.mem_Icc.mpr ⟨le_refl 0, hπ.le⟩)
    (Set.mem_Icc.mpr ⟨h0.le, hle⟩) h0
  simpa using this

/-- C4: for every Julian Day input, `jd_to_esd` returns exactly the value
`1.00014 − 0.01671·cos(g) − 0.00014·cos(2g)` (with `g = 357.529 +
0.98560028·(jd − 2451545.0)` degrees); that value lies in [0.983, 1.017] for
every input — in particular for the Julian Days of a full year — and the
RangeError branch fires exactly when the value leaves the window, hence
never. -/
theorem jd_to_esd_total_in_range (jd : ℝ) :
    jd_to_esd jd = .ok (esdValue jd) ∧
    0.983 ≤ esdValue jd ∧ esdValue jd ≤ 1.017 ∧
    (jd_to_esd jd = .error .rangeError ↔
      ¬ (0.983 ≤ esdValue jd ∧ esdValue jd ≤ 1.017)) := by
  refine ⟨jd_to_esd_ok jd, (esdValue_mem jd).1, (esdValue_mem jd).2, ?_, ?_⟩
  · intro h
    rw [jd_to_esd_ok jd] at h
    exact absurd h (by simp)
  · intro h
    exact absurd (esdValue_mem jd) h

/-- C2: on the documented reference stamp 2001-10-18T18:51:26Z the fields
parse as (2001, 10, 18, 18h 51m 26s), but `julian_day` applied to them gives
2452200.2857…, one full day below the documented value 2452201.286: the
±0.001 tolerance is missed by ≈ 1.0003, while the value plus one day meets
it (the source subtracts 1525.5 where the standard formula has 1524.5). -/
theorem julian_day_reference_off_by_one :
    extract_time_elements "2001_10_18T18:51:26.000000Z;" =
      some ⟨2001, 10, 18, 18, 51, 26⟩ ∧
    |julian_day 2001 10 18 (universal_time 18 51 26) - 2452201.286| > 1 / 1000 ∧
    |julian_day 2001 10 18 (universal_time 18 51 26) - (2452201.286 - 1)| < 1 / 1000 := by
  refine ⟨by with_unfolding_all rfl, ?_, ?_⟩
  · with_unfolding_all exact of_decide_eq_true rfl
  · with_unfolding_all exact of_decide_eq_true rfl

/-- C1: the reflectance mapcalc expression of `i.worldview.toar.py` has no
parentheses around `Esun * cos(sza)`, so it multiplies by `cos(sza)` instead
of dividing by it: at radiance 1, esd 1, Esun 2, sza 60° the built
expression yields π/4 while the specified formula yields π.  The shell
script `i.wv.toar.py` parenthesizes the divisor and yields its π-literal at
the same input, matching the spec's shape. -/
theorem toar_precedence_divergence :
    toar_pixel 1 1 2 60 = Real.pi / 4 ∧
    reflectance_specified 1 1 2 60 = Real.pi ∧
    toar_pixel 1 1 2 60 ≠ reflectance_specified 1 1 2 60 ∧
    toar_pixel_wv 1 1 2 60 = 3.14159265358 := by
  have hcos : Real.cos (60 * Real.pi / 180) = 1 / 2 := by
    rw [show (60 : ℝ) * Real.pi / 180 = Real.pi / 3 by ring]
    exact Real.cos_pi_div_three
  have h1 : toar_pixel 1 1 2 60 = Real.pi / 4 := by
    unfold toar_pixel cosdeg
    rw [hcos]
    ring
  have h2 : reflectance_specified 1 1 2 60 = Real.pi := by
    unfold reflectance_specified
    rw [hcos]
    norm_num
  have h4 : toar_pixel_wv 1 1 2 60 = 3.14159265358 := by
    unfold toar_pixel_wv cosdeg
    rw [hcos]
    norm_num
  refine ⟨h1, h2, ?_, h4⟩
  rw [h1, h2]
  intro h
  have hπ := Real.pi_pos
  linarith

/-- C7: the radiance conversion is linear in DN — for every entry of the
calibration table, scaling every DN pixel by a constant scales every
radiance pixel by the same constant. -/
theorem to_radiance_linear_in_dn (band : String) (e : CalibEntry)
    (h : lookup band = some e) {P : Type} (img : P → ℚ) (c : ℚ) (p : P) :
    to_radiance_img e (fun q => c * img q) p = c * to_radiance_img e img p := by
  unfold to_radiance_img to_radiance_px
  ring

theorem to_radiance_linear_in_dn_witness :
    lookup "Green" = some ⟨0.06300000, 1856.4104, 0.009713071⟩ ∧
    to_radiance_img ⟨0.06300000, 1856.4104, 0.009713071⟩
        (fun q : Unit => 2 * (fun _ : Unit => (100 : ℚ)) q) () =
      2 * to_radiance_img ⟨0.06300000, 1856.4104, 0.009713071⟩
        (fun _ : Unit => (100 : ℚ)) () :=
  ⟨by with_unfolding_all rfl,
   to_radiance_linear_in_dn "Green" ⟨0.06300000, 1856.4104, 0.009713071⟩
     (by with_unfolding_all rfl) (fun _ : Unit => (100 : ℚ)) 2 ()⟩

/-- The dictionary access succeeds exactly on the table's key set. -/
theorem lookup_isSome_iff (band : String) :
    (lookup band).isSome = true ↔ band ∈ CF_BW_ESUN.map Prod.fst := by
  rw [lookup, Option.isSome_map', List.find?_isSome]
  constructor
  · rintro ⟨x, hx, he⟩
    exact List.mem_map.mpr ⟨x, hx, beq_iff_eq.mp he⟩
  · intro hb
    rcases List.mem_map.mp hb with ⟨x, hx, hxe⟩
    exact ⟨x, hx, beq_iff_eq.mpr hxe⟩

/-- C8: the calibration table's keys are exactly the nine documented band
names, and the dictionary access succeeds exactly on them — any other band
name raises `KeyError` (`UnknownBandError`). -/
theorem calibration_table_domain :
    CF_BW_ESUN.map Prod.fst =
      ["Pan", "Coastal", "Blue", "Green", "Yellow", "Red", "RedEdge", "NIR1", "NIR2"] ∧
    ∀ band : String, (lookup band).isSome = true ↔
      band ∈ ["Pan", "Coastal", "Blue", "Green", "Yellow", "Red", "RedEdge", "NIR1", "NIR2"] := by
  have hkeys : CF_BW_ESUN.map Prod.fst =
      ["Pan", "Coastal", "Blue", "Green", "Yellow", "Red", "RedEdge", "NIR1", "NIR2"] := rfl
  refine ⟨hkeys, fun band => ?_⟩
  rw [← hkeys]
  exact lookup_isSome_iff band

/-- A string with a non-empty suffix appended is non-empty. -/
theorem append_ne_empty (s t : String) (h : t.length ≠ 0) : s ++ t ≠ "" := by
  intro he
  have hl := congrArg String.length he
  rw [String.length_append] at hl
  have h0 : String.length "" = 0 := rfl
  rw [h0] at hl
  omega

/-- C3 counterexample: with reflectance requested, the `if tmp_toar: ...
elif tmp_rad: ...` block delivers only the reflectance map — no radiance
map reaches the caller for the band. -/
theorem reflectance_mode_drops_radiance :
    process_band false "tmp.12345" "Green" "toar" =
      [⟨OutKind.reflectance, "Unitless planetary reflectance", "Green.toar"⟩] ∧
    OutKind.radiance ∉
      (process_band false "tmp.12345" "Green" "toar").map DeliveredOutput.kind := by
  refine ⟨by with_unfolding_all rfl, ?_⟩
  with_unfolding_all exact of_decide_eq_true rfl

/-- C3 amended: exactly one output map is delivered per band: the radiance
map (units `"W / sq.m. / μm / ster"`) when the `-r` flag requests radiance
only, else the reflectance map (units `"Unitless planetary reflectance"`);
in reflectance mode the radiance map stays a temporary and is not
delivered. -/
theorem one_output_per_band (tmp band outputsuffix : String) :
    process_band true tmp band outputsuffix =
      [⟨OutKind.radiance, "W / sq.m. / μm / ster",
        stripMapset (stripMapset band) ++ "." ++ outputsuffix⟩] ∧
    process_band false tmp band outputsuffix =
      [⟨OutKind.reflectance, "Unitless planetary reflectance",
        stripMapset (stripMapset band) ++ "." ++ outputsuffix⟩] := by
  have hrad : tmp ++ ".Radiance" ≠ "" :=
    append_ne_empty tmp ".Radiance" (by decide)
  have htoar : tmp ++ ".Reflectance" ≠ "" :=
    append_ne_empty tmp ".Reflectance" (by decide)
  constructor
  · simp [process_band, deliver, hrad]
  · simp [process_band, deliver, htoar]

/-- C6 counterexample: with both a day-of-year and a UTC string supplied the
invocation is accepted — the day-of-year wins (it is passed straight to
`jd_to_esd` as if it were a Julian Day) and the UTC string is ignored, so
the two inputs are not exclusive. -/
theorem doy_overrides_utc :
    main_esd "100" "2001_10_18T18:51:26.000000Z;" = .ok (esdValue 100) := by
  have h1 : pyIntOfString "100" = some 100 := by with_unfolding_all rfl
  unfold main_esd
  rw [if_pos (by decide : ("100" : String) ≠ "")]
  rw [h1]
  show jd_to_esd ((100 : ℤ) : ℝ) = .ok (esdValue 100)
  rw [jd_to_esd_ok]
  norm_num

/-- C6 amended: at least one of `doy`/`utc` is required — with both absent
the invocation fails on the missing-metadata branch; a supplied `doy` takes
precedence and the result is independent of the `utc` string; the UTC
pipeline is used only when `doy` is absent. -/
theorem esd_source_selection :
    main_esd "" "" = .error .missingMetadata ∧
    (∀ doy utc utc' : String, doy ≠ "" → main_esd doy utc = main_esd doy utc') ∧
    (∀ utc : String, utc ≠ "" → main_esd "" utc = utc_to_esd utc) := by
  refine ⟨by simp [main_esd], fun doy utc utc' h => ?_, fun utc h => ?_⟩
  · simp [main_esd, h]
  · simp [main_esd, h]

theorem esd_source_selection_witness :
    main_esd "100" "a" = main_esd "100" "b" ∧
    main_esd "" "2001_10_18T18:51:26.000000Z;" =
      utc_to_esd "2001_10_18T18:51:26.000000Z;" :=
  ⟨esd_source_selection.2.1 "100" "a" "b" (by decide),
   esd_source_selection.2.2 "2001_10_18T18:51:26.000000Z;" (by decide)⟩

/-- C9: the end-to-end Green scenario fails on the program twice over.  The
calibration lookup yields K=0.009713071, Δλ=0.063, Esun=1856.4104, but the
`%f` interpolation rounds K to 0.009713 in the actual expression, so the
program's radiance pixel for DN=100 is 0.009713·100/0.063000 = 9713/630 =
15.41746…, which already misses the claim's exact 9713071/630000 =
15.41757… in the sixth significant digit; and the reflectance expression
multiplies by cos(36.2°) instead of dividing, so the computed pixel equals
the specified formula at the program's radiance times cos²(36.2°) ≈ 0.651
and lies strictly below the claim's reference value
π·15.41757…·esd²/(1856.4104·cos 36.2°). -/
theorem green_scenario_divergence :
    lookup "Green" = some ⟨0.06300000, 1856.4104, 0.009713071⟩ ∧
    to_radiance_px ⟨0.06300000, 1856.4104, 0.009713071⟩ 100 = 9713 / 630 ∧
    (9713 / 630 : ℚ) ≠ 9713071 / 630000 ∧
    toar_pixel (9713 / 630) (esdValue 100) 1856.4104 36.2 =
      reflectance_specified (9713 / 630) (esdValue 100) 1856.4104 36.2 *
        cosdeg 36.2 ^ 2 ∧
    toar_pixel (9713 / 630) (esdValue 100) 1856.4104 36.2 ≠
      reflectance_specified (9713071 / 630000) (esdValue 100) 1856.4104 36.2 := by
  have hc0 : Real.cos (36.2 * Real.pi / 180) ≠ 0 := ne_of_gt cosdeg_36_2_pos
  have hE : (1856.4104 : ℝ) ≠ 0 := by norm_num
  have hesd : (0 : ℝ) < esdValue 100 :=
    lt_of_lt_of_le (by norm_num) (esdValue_mem 100).1
  have heq : toar_pixel (9713 / 630) (esdValue 100) 1856.4104 36.2 =
      reflectance_specified (9713 / 630) (esdValue 100) 1856.4104 36.2 *
        cosdeg 36.2 ^ 2 := by
    unfold toar_pixel reflectance_specified cosdeg
    field_simp
    ring
  have hpos : 0 <
      reflectance_specified (9713 / 630) (esdValue 100) 1856.4104 36.2 := by
    have hr : (0 : ℝ) < 9713 / 630 := by norm_num
    unfold reflectance_specified
    apply div_pos
    · exact mul_pos (mul_pos Real.pi_pos hr) (pow_pos hesd 2)
    · exact mul_pos (by norm_num) cosdeg_36_2_pos
  have hc1 : cosdeg 36.2 ^ 2 < 1 := by
    have h2 := cosdeg_36_2_lt_one
    have h3 := cosdeg_36_2_pos
    nlinarith
  have hS2 : reflectance_specified (9713 / 630) (esdValue 100) 1856.4104 36.2 <
      reflectance_specified (9713071 / 630000) (esdValue 100) 1856.4104 36.2 := by
    have hrr : (9713 / 630 : ℝ) < 9713071 / 630000 := by norm_num
    have hnum : Real.pi * (9713 / 630) * esdValue 100 ^ 2 <
        Real.pi * (9713071 / 630000) * esdValue 100 ^ 2 :=
      mul_lt_mul_of_pos_right (mul_lt_mul_of_pos_left hrr Real.pi_pos)
        (pow_pos hesd 2)
    have hden : (0 : ℝ) < 1856.4104 * Real.cos (36.2 * Real.pi / 180) :=
      mul_pos (by norm_num) cosdeg_36_2_pos
    exact div_lt_div_of_pos_right hnum hden
  have hlt : toar_pixel (9713 / 630) (esdValue 100) 1856.4104 36.2 <
      reflectance_specified (9713071 / 630000) (esdValue 100) 1856.4104 36.2 := by
    have hstep : toar_pixel (9713 / 630) (esdValue 100) 1856.4104 36.2 <
        reflectance_specified (9713 / 630) (esdValue 100) 1856.4104 36.2 := by
      rw [heq]
      nlinarith [hpos, hc1]
    exact lt_trans hstep hS2
  exact ⟨by with_unfolding_all rfl, by with_unfolding_all rfl, by norm_num,
    heq, ne_of_lt hlt⟩

/-- The January reference stamp used to exhibit the Jan/Feb adjustment. -/
def uJan : String := "2014_01_12T16:47:08.000000Z;"

/-- The object `AcquisitionTime(uJan)` constructs. -/
noncomputable def tJan : AcquisitionTime :=
  { utc := uJan, year := 2013, month := 13, day := 12, hours := 16,
    minutes := 47, seconds := 8,
    ut := universal_time 16 47 8,
    jd := julian_day 2013 13 12 (universal_time 16 47 8),
    esd := esdValue ((julian_day 2013 13 12 (universal_time 16 47 8) : ℚ) : ℝ) }

theorem make_uJan : AcquisitionTime.make uJan = some tJan := by
  have hex : extract_time_elements uJan = some ⟨2013, 13, 12, 16, 47, 8⟩ := by
    with_unfolding_all rfl
  have hutc : utc_to_esd uJan =
      .ok (esdValue ((julian_day 2013 13 12 (universal_time 16 47 8) : ℚ) : ℝ)) := by
    unfold utc_to_esd
    rw [hex]
    exact jd_to_esd_ok _
  unfold AcquisitionTime.make
  rw [hex, hutc]
  rfl

/-- C5 counterexample: for the January stamp the parsed calendar year and
month are 2014 and 1, yet the constructed object's public fields are the
adjusted 2013 and 13 — `extract_time_elements` applies the adjustment to the
very dictionary whose entries `AcquisitionTime` re-exposes. -/
theorem acquisition_time_exposes_adjustment :
    AcquisitionTime.make uJan = some tJan ∧
    pyIntOfString (pySlice uJan 0 4) = some 2014 ∧
    pyIntOfString (pySlice uJan 5 7) = some 1 ∧
    tJan.year = 2013 ∧ tJan.month = 13 ∧ tJan.year ≠ 2014 ∧ tJan.month ≠ 1 :=
  ⟨make_uJan, by with_unfolding_all rfl, by with_unfolding_all rfl, rfl, rfl,
   by decide, by decide⟩

/-- C5 amended: the January/February adjustment is applied inside
`extract_time_elements` itself, so the adjusted values are exactly what the
constructed object exposes: when the parsed month is 1 or 2 the public
fields are (year−1, month+12), otherwise the raw calendar values. -/
theorem acquisition_time_fields (u : String) (t : AcquisitionTime)
    (h : AcquisitionTime.make u = some t) (y m : ℤ)
    (hy : pyIntOfString (pySlice u 0 4) = some y)
    (hm : pyIntOfString (pySlice u 5 7) = some m) :
    t.year = (if m = 1 ∨ m = 2 then y - 1 else y) ∧
    t.month = (if m = 1 ∨ m = 2 then m + 12 else m) := by
  unfold AcquisitionTime.make extract_time_elements at h
  simp only [hy, hm, Option.bind_eq_bind', Option.some_bind, Option.pure_def,
    Option.bind_eq_some, Option.map_eq_some', Option.some.injEq] at h
  obtain ⟨a, ⟨day, hday, hours, hhours, minutes, hmin, seconds, hsec, ha⟩,
    esd, hesd, ht⟩ := h
  rw [← ht, ← ha]
  exact ⟨rfl, rfl⟩

theorem acquisition_time_fields_witness :
    AcquisitionTime.make uJan = some tJan ∧
    tJan.year = (if (1 : ℤ) = 1 ∨ (1 : ℤ) = 2 then 2014 - 1 else 2014) ∧
    tJan.month = (if (1 : ℤ) = 1 ∨ (1 : ℤ) = 2 then 1 + 12 else 1) :=
  ⟨make_uJan,
   (acquisition_time_fields uJan tJan make_uJan 2014 1
     (by with_unfolding_all rfl) (by with_unfolding_all rfl)).1,
   (acquisition_time_fields uJan tJan make_uJan 2014 1
     (by with_unfolding_all rfl) (by with_unfolding_all rfl)).2⟩

/-- C10: internal consistency of the constructor's two derivation paths:
the stored `esd` (from `utc_to_esd` re-run on the stored string) is exactly
what `jd_to_esd` yields on the stored `jd` (computed from the stored
calendar fields) — both paths run the same deterministic extraction. -/
theorem acquisition_time_consistent (u : String) (t : AcquisitionTime)
    (h : AcquisitionTime.make u = some t) :
    jd_to_esd (t.jd : ℝ) = .ok t.esd := by
  unfold AcquisitionTime.make at h
  cases hex : extract_time_elements u with
  | none => rw [hex] at h; simp at h
  | some a =>
      rw [hex] at h
      have hutc : utc_to_esd u =
          .ok (esdValue ((julian_day a.year a.month a.day
            (universal_time a.hours a.minutes a.seconds) : ℚ) : ℝ)) := by
        unfold utc_to_esd
        rw [hex]
        exact jd_to_esd_ok _
      rw [hutc] at h
      simp only [Option.some_bind] at h
      have hopt : (Except.ok (ε := ToarError)
          (esdValue ((julian_day a.year a.month a.day
            (universal_time a.hours a.minutes a.seconds) : ℚ) : ℝ))).toOption =
          some (esdValue ((julian_day a.year a.month a.day
            (universal_time a.hours a.minutes a.seconds) : ℚ) : ℝ)) := rfl
      rw [hopt, Option.map_some'] at h
      injection h with h'
      rw [← h']
      exact jd_to_esd_ok _

/-- The documented reference stamp, as a named constant for the witness. -/
def uRef : String := "2001_10_18T18:51:26.000000Z;"

/-- The object `AcquisitionTime(uRef)` constructs. -/
noncomputable def tRef : AcquisitionTime :=
  { utc := uRef, year := 2001, month := 10, day := 18, hours := 18,
    minutes := 51, seconds := 26,
    ut := universal_time 18 51 26,
    jd := julian_day 2001 10 18 (universal_time 18 51 26),
    esd := esdValue ((julian_day 2001 10 18 (universal_time 18 51 26) : ℚ) : ℝ) }

theorem make_uRef : AcquisitionTime.make uRef = some tRef := by
  have hex : extract_time_elements uRef = some ⟨2001, 10, 18, 18, 51, 26⟩ := by
    with_unfolding_all rfl
  have hutc : utc_to_esd uRef =
      .ok (esdValue ((julian_day 2001 10 18 (universal_time 18 51 26) : ℚ) : ℝ)) := by
    unfold utc_to_esd
    rw [hex]
    exact jd_to_esd_ok _
  unfold AcquisitionTime.make
  rw [hex, hutc]
  rfl

theorem acquisition_time_consistent_witness :
    jd_to_esd (tRef.jd : ℝ) = .ok tRef.esd :=
  acquisition_time_consistent uRef tRef make_uRef

end WVToar
